import Mathlib

/-!
Verification of the pyandroid core, src/pyandroid/core.py and
src/pyandroid/ui.py, against its natural-language specification.

Shallow embedding conventions:
* Mutable Python objects become Lean values threaded explicitly; a method that
  mutates self and may raise becomes a function returning the new self together
  with an optional error (on a raise the returned self is the unchanged object,
  mirroring that the source raises before any assignment in these methods).
* Activity states are the strings of the source.
* The lifecycle hooks of the source, core.py lines 239-257, are no-op bodies
  meant to be overridden.  To observe hook invocations, each hook in the model
  appends a pair of the hook and the current state field to a hookLog field:
  this models a subclass whose overrides record each call together with the
  state the hook observes, which is what the hook-order and hook-observed-state
  properties quantify over.
* Fields of the source that no claim touches, such as loggers, Activity.views,
  Activity.extras and the Kivy renderer, are omitted.
-/

namespace PyAndroid

/-- Embeds Activity.VALID_TRANSITIONS, core.py lines 148-155, as the total
lookup used at line 179 via dict get with default empty list: unknown states
map to the empty list. -/
def VALID_TRANSITIONS : String → List String
  | "created" => ["started"]
  | "started" => ["resumed", "stopped"]
  | "resumed" => ["paused"]
  | "paused" => ["resumed", "stopped"]
  | "stopped" => ["started", "destroyed"]
  | "destroyed" => []
  | _ => []

/-- Names for the five overridable lifecycle hooks of Activity,
core.py 239-257. -/
inductive Hook
  | onStart
  | onResume
  | onPause
  | onStop
  | onDestroy
deriving DecidableEq, Repr

/-- Embeds InvalidStateError, core.py 21-23; the message built at lines
180-182 mentions exactly the current state and the requested state, so the
error data is that pair of states. -/
structure InvalidStateErr where
  from_state : String
  to_state : String
deriving DecidableEq, Repr

/-- Embeds Activity, core.py 131 onward: name and state as in the
constructor, core.py 157-168, where state starts at "created"; hookLog is the
hook instrumentation described in the file header, each entry being the hook
invoked paired with the value of the state field at the moment the hook body
runs. -/
structure Activity where
  name : String
  state : String
  hookLog : List (Hook × String)
deriving DecidableEq, Repr

/-- Embeds the Activity constructor, core.py 157-168: a fresh activity in
state "created" with no hook invocations yet. -/
def Activity.construct (name : String) : Activity :=
  { name := name, state := "created", hookLog := [] }

/-- Embeds Activity validate transition, core.py 170-182: none when the
transition is allowed, otherwise the raised InvalidStateError. -/
def Activity.validate_transition (a : Activity) (new_state : String) :
    Option InvalidStateErr :=
  if new_state ∈ VALID_TRANSITIONS a.state then none
  else some { from_state := a.state, to_state := new_state }

/-- Embeds Activity.on_start, core.py 239-241, instrumented: records the hook
invocation together with the state it observes, the state field at call
time. -/
def Activity.on_start (a : Activity) : Activity :=
  { a with hookLog := a.hookLog ++ [(Hook.onStart, a.state)] }

/-- Embeds Activity.on_resume, core.py 243-245, instrumented likewise. -/
def Activity.on_resume (a : Activity) : Activity :=
  { a with hookLog := a.hookLog ++ [(Hook.onResume, a.state)] }

/-- Embeds Activity.on_pause, core.py 247-249, instrumented likewise. -/
def Activity.on_pause (a : Activity) : Activity :=
  { a with hookLog := a.hookLog ++ [(Hook.onPause, a.state)] }

/-- Embeds Activity.on_stop, core.py 251-253, instrumented likewise. -/
def Activity.on_stop (a : Activity) : Activity :=
  { a with hookLog := a.hookLog ++ [(Hook.onStop, a.state)] }

/-- Embeds Activity.on_destroy, core.py 255-257, instrumented likewise. -/
def Activity.on_destroy (a : Activity) : Activity :=
  { a with hookLog := a.hookLog ++ [(Hook.onDestroy, a.state)] }

/-- Embeds Activity.start, core.py 184-193: validate, then assign state
"started", then call on_start.  On a raise the object is returned unchanged,
since the exception fires before the assignment. -/
def Activity.start (a : Activity) : Activity × Option InvalidStateErr :=
  match a.validate_transition "started" with
  | some e => (a, some e)
  | none => (({ a with state := "started" } : Activity).on_start, none)

/-- Embeds Activity.resume, core.py 195-204. -/
def Activity.resume (a : Activity) : Activity × Option InvalidStateErr :=
  match a.validate_transition "resumed" with
  | some e => (a, some e)
  | none => (({ a with state := "resumed" } : Activity).on_resume, none)

/-- Embeds Activity.pause, core.py 206-215. -/
def Activity.pause (a : Activity) : Activity × Option InvalidStateErr :=
  match a.validate_transition "paused" with
  | some e => (a, some e)
  | none => (({ a with state := "paused" } : Activity).on_pause, none)

/-- Embeds Activity.stop, core.py 217-226. -/
def Activity.stop (a : Activity) : Activity × Option InvalidStateErr :=
  match a.validate_transition "stopped" with
  | some e => (a, some e)
  | none => (({ a with state := "stopped" } : Activity).on_stop, none)

/-- Embeds Activity.destroy, core.py 228-237. -/
def Activity.destroy (a : Activity) : Activity × Option InvalidStateErr :=
  match a.validate_transition "destroyed" with
  | some e => (a, some e)
  | none => (({ a with state := "destroyed" } : Activity).on_destroy, none)

/-- Names for the five public lifecycle operations, for quantifying over
them. -/
inductive LifecycleOp
  | start
  | resume
  | pause
  | stop
  | destroy
deriving DecidableEq, Repr

/-- Maps each lifecycle operation to the target state it requests, the
literal passed to validate and assigned to the state field in
core.py 184-237. -/
def LifecycleOp.target : LifecycleOp → String
  | .start => "started"
  | .resume => "resumed"
  | .pause => "paused"
  | .stop => "stopped"
  | .destroy => "destroyed"

/-- Maps each lifecycle operation to the hook it invokes on success,
core.py 184-237. -/
def LifecycleOp.hook : LifecycleOp → Hook
  | .start => Hook.onStart
  | .resume => Hook.onResume
  | .pause => Hook.onPause
  | .stop => Hook.onStop
  | .destroy => Hook.onDestroy

/-- Dispatches a lifecycle operation to the corresponding method. -/
def Activity.applyOp (a : Activity) : LifecycleOp → Activity × Option InvalidStateErr
  | .start => a.start
  | .resume => a.resume
  | .pause => a.pause
  | .stop => a.stop
  | .destroy => a.destroy

/-- Models a caller issuing lifecycle calls in sequence; execution stops at
the first raised error, as an uncaught Python exception would stop the
caller. -/
def Activity.runOps (a : Activity) : List LifecycleOp → Activity × Option InvalidStateErr
  | [] => (a, none)
  | op :: ops =>
    match a.applyOp op with
    | (a1, none) => a1.runOps ops
    | (a1, some e) => (a1, some e)

/-- Embeds the errors start_activity can raise: ActivityNotFoundError,
core.py 16-18, raised at 95-99 with a message listing the registered names,
so the error data carries that list; and a propagated InvalidStateError. -/
inductive AppError
  | activityNotFound (name : String) (registered : List String)
  | invalidState (e : InvalidStateErr)
deriving DecidableEq, Repr

/-- Embeds AndroidApp, core.py 26-67.  The activities field holds the
registered names in dict-key order; the registered classes are collapsed to
the base Activity factory, since in this development every activity behaves
as the instrumented base class and start_activity only ever calls the factory
with the name.  The GUI, renderer and logger machinery is omitted. -/
structure AndroidApp where
  app_name : String
  package_name : String
  activities : List String
  current : Option Activity
deriving DecidableEq, Repr

/-- Embeds AndroidApp.register_activity, core.py 69-80: dict assignment, so a
new key is appended and re-registering an existing name keeps its position;
the stored factory is always the base Activity factory here. -/
def AndroidApp.register_activity (app : AndroidApp) (name : String) : AndroidApp :=
  if name ∈ app.activities then app
  else { app with activities := app.activities ++ [name] }

/-- Records the observable outcome of one start_activity call, making the
in-place mutation explicit: app is the host after the call, prev is the final
value of the activity object that was current on entry, still reachable
through any caller-held reference, and error is the exception raised, if
any. -/
structure StartResult where
  app : AndroidApp
  prev : Option Activity
  error : Option AppError
deriving DecidableEq, Repr

/-- Embeds core.py 106-108: construct the activity from the factory, assign
it as current, then call start on it, which mutates the object current points
to.  For a fresh object start cannot raise, but the model keeps the general
shape. -/
def AndroidApp.startNew (app : AndroidApp) (name : String) (prev : Option Activity) :
    StartResult :=
  let newAct := Activity.construct name
  let r := newAct.start
  { app := { app with current := some r.1 },
    prev := prev,
    error := r.2.map AppError.invalidState }

/-- Embeds AndroidApp.start_activity, core.py 82-109: an unknown name raises
ActivityNotFoundError carrying the registered names, before any mutation;
otherwise an existing current activity is forced through stop then destroy,
where each raise propagates and leaves everything as the raise left it, since
the raising method mutates nothing; then the new activity is constructed,
assigned current and started. -/
def AndroidApp.start_activity (app : AndroidApp) (name : String) : StartResult :=
  if name ∈ app.activities then
    match app.current with
    | none => app.startNew name none
    | some act =>
      match act.stop with
      | (a1, some e) =>
        { app := { app with current := some a1 },
          prev := some a1,
          error := some (AppError.invalidState e) }
      | (a1, none) =>
        match a1.destroy with
        | (a2, some e) =>
          { app := { app with current := some a2 },
            prev := some a2,
            error := some (AppError.invalidState e) }
        | (a2, none) =>
          ({ app with current := some a2 } : AndroidApp).startNew name (some a2)
  else
    { app := app,
      prev := app.current,
      error := some (AppError.activityNotFound name app.activities) }

/-! ## UI model, src/pyandroid/ui.py -/

/-- Embeds the layout padding dict, ui.py 243 and 276-290, as a record. -/
structure Padding where
  left : Int
  top : Int
  right : Int
  bottom : Int
deriving DecidableEq, Repr

/-- Embeds the concrete View subclasses, ui.py 102-229, with their extra
fields: TextView with text, text_color, text_size and font_family; Button, a
TextView with different default colours, ui.py 160-173; EditText with text,
hint, text_color and hint_color. -/
inductive ViewVariant
  | textView (text : String) (text_color : String) (text_size : Int)
      (font_family : String)
  | button (text : String) (text_color : String) (text_size : Int)
      (font_family : String)
  | editText (text : String) (hint : String) (text_color : String)
      (hint_color : String)
deriving DecidableEq, Repr

/-- Embeds the View base constructor, ui.py 17-33, with the defaults of the
source; onclick_listener starts as None, and since the only observable of a
listener in this development is whether it is invoked, its payload is
Unit. -/
structure View where
  view_id : String
  width : Int := 0
  height : Int := 0
  x : Int := 0
  y : Int := 0
  visible : Bool := true
  enabled : Bool := true
  background_color : String := "#FFFFFF"
  onclick_listener : Option Unit := none
  variant : ViewVariant
deriving DecidableEq, Repr

/-- Embeds View.set_position, ui.py 35-43. -/
def View.set_position (v : View) (x y : Int) : View :=
  { v with x := x, y := y }

/-- Embeds View.set_size, ui.py 45-53. -/
def View.set_size (v : View) (width height : Int) : View :=
  { v with width := width, height := height }

/-- Embeds View.set_visibility, ui.py 55-61. -/
def View.set_visibility (v : View) (visible : Bool) : View :=
  { v with visible := visible }

/-- Embeds View.set_enabled, ui.py 63-69. -/
def View.set_enabled (v : View) (enabled : Bool) : View :=
  { v with enabled := enabled }

/-- Embeds View.set_on_click_listener, ui.py 79-85: registers a callback. -/
def View.set_on_click_listener (v : View) : View :=
  { v with onclick_listener := some () }

/-- Embeds View.on_click, ui.py 87-90: the listener is called when one is
registered and the enabled flag is true, since a registered function object
is always truthy there.  The returned Bool is the observable
listener-was-invoked; false is a silent no-op, not an error. -/
def View.on_click (v : View) : Bool :=
  v.onclick_listener.isSome && v.enabled

/-- Embeds the dictionary produced by a leaf render, ui.py 143-157, 175-179
and 215-229, as a record: keys absent from the dict of a variant are none;
TextView and Button have no hint or hint_color, EditText has no text_size or
font_family. -/
structure LeafRender where
  type : String
  id : String
  text : Option String
  text_color : Option String
  text_size : Option Int
  font_family : Option String
  hint : Option String
  hint_color : Option String
  x : Int
  y : Int
  width : Int
  height : Int
  visible : Bool
  enabled : Bool
  background_color : String
deriving DecidableEq, Repr

/-- Embeds leaf render dispatch: TextView.render at ui.py 143-157;
Button.render at ui.py 175-179, which is the TextView dict with type
overridden to "Button"; EditText.render at ui.py 215-229. -/
def View.render (v : View) : LeafRender :=
  match v.variant with
  | .textView t tc ts ff =>
    { type := "TextView", id := v.view_id, text := some t, text_color := some tc,
      text_size := some ts, font_family := some ff, hint := none,
      hint_color := none, x := v.x, y := v.y, width := v.width,
      height := v.height, visible := v.visible, enabled := v.enabled,
      background_color := v.background_color }
  | .button t tc ts ff =>
    { type := "Button", id := v.view_id, text := some t, text_color := some tc,
      text_size := some ts, font_family := some ff, hint := none,
      hint_color := none, x := v.x, y := v.y, width := v.width,
      height := v.height, visible := v.visible, enabled := v.enabled,
      background_color := v.background_color }
  | .editText t h tc hc =>
    { type := "EditText", id := v.view_id, text := some t,
      text_color := some tc, text_size := none, font_family := none,
      hint := some h, hint_color := some hc, x := v.x, y := v.y,
      width := v.width, height := v.height, visible := v.visible,
      enabled := v.enabled, background_color := v.background_color }

/-- Distinguishes the two Layout subclasses, ui.py 312-356: LinearLayout
carries its orientation string, ui.py 315-323, and anything other than the
string "vertical" is treated as horizontal at ui.py 333; RelativeLayout
carries nothing. -/
inductive LayoutKind
  | linear (orient : String)
  | relative
deriving DecidableEq, Repr

/-- Embeds the Layout base constructor, ui.py 235-243: id, ordered children,
typed as a list of View in the source, and padding defaulting to all zeros;
the kind field selects the subclass. -/
structure Layout where
  layout_id : String
  children : List View := []
  padding : Padding := { left := 0, top := 0, right := 0, bottom := 0 }
  kind : LayoutKind
deriving DecidableEq, Repr

/-- Embeds Layout.set_padding, ui.py 276-290. -/
def Layout.set_padding (l : Layout) (left top right bottom : Int) : Layout :=
  { l with padding := { left := left, top := top, right := right, bottom := bottom } }

/-- Embeds the loop of LinearLayout.arrange_children, ui.py 325-336, with the
cursor made explicit: each child is placed at the cursor, then the cursor
advances by the size of the child on the orientation axis plus the fixed
margin of 10. -/
def arrangeFrom (orient : String) : List View → Int → Int → List View
  | [], _, _ => []
  | child :: rest, current_x, current_y =>
    let child1 := child.set_position current_x current_y
    if orient = "vertical" then
      child1 :: arrangeFrom orient rest current_x (current_y + child1.height + 10)
    else
      child1 :: arrangeFrom orient rest (current_x + child1.width + 10) current_y

/-- Embeds arrange_children of each subclass: LinearLayout.arrange_children,
ui.py 325-336, starts the cursor at the left and top padding;
RelativeLayout.arrange_children, ui.py 350-356, is pass, so children keep
their manually set positions. -/
def Layout.arrange_children (l : Layout) : Layout :=
  match l.kind with
  | .linear orient =>
    { l with children := arrangeFrom orient l.children l.padding.left l.padding.top }
  | .relative => l

/-- Gives the class name string used by Layout.render at ui.py 305. -/
def Layout.typeName (l : Layout) : String :=
  match l.kind with
  | .linear _ => "LinearLayout"
  | .relative => "RelativeLayout"

/-- Embeds the dictionary produced by Layout.render, ui.py 297-309. -/
structure LayoutRender where
  type : String
  id : String
  padding : Padding
  children : List LeafRender
deriving DecidableEq, Repr

/-- Embeds Layout.render, ui.py 297-309: first arrange_children, a side
effect on the children, then the snapshot dict.  The first component is the
layout after the side effect, the second the returned dict. -/
def Layout.render (l : Layout) : Layout × LayoutRender :=
  let l1 := l.arrange_children
  (l1,
   { type := l1.typeName, id := l1.layout_id, padding := l1.padding,
     children := l1.children.map View.render })

/-- Helper for iterating render calls: the layout state left behind by one
render call, its first component. -/
def Layout.renderState (l : Layout) : Layout :=
  (l.render).1

/-!
## Child-collection management by object identity, ui.py 245-260

Layout.add_view appends; Layout.remove_view uses Python membership and list
remove, which compare with double-equals; View defines no custom equality, so
the comparison is object identity.  Views are therefore modelled by identity
tokens, one Nat per object: two tokens are equal exactly when they are the
same Python object.
-/

/-- Embeds Layout.add_view, ui.py 245-251: unconditional append. -/
def add_view (children : List Nat) (view : Nat) : List Nat :=
  children ++ [view]

/-- Embeds Layout.remove_view, ui.py 253-260: remove the first occurrence, if
the view is present. -/
def remove_view (children : List Nat) (view : Nat) : List Nat :=
  if view ∈ children then children.erase view else children

/-- Names one child-management call. -/
inductive ChildOp
  | add (view : Nat)
  | remove (view : Nat)
deriving DecidableEq, Repr

/-- Runs a sequence of add_view and remove_view calls. -/
def applyChildOps : List Nat → List ChildOp → List Nat
  | cs, [] => cs
  | cs, ChildOp.add v :: ops => applyChildOps (add_view cs v) ops
  | cs, ChildOp.remove v :: ops => applyChildOps (remove_view cs v) ops

/-- Recognises a call sequence in which every add_view call adds an object
that is not currently in the child collection. -/
def addsFresh : List Nat → List ChildOp → Bool
  | _, [] => true
  | cs, ChildOp.add v :: ops => !(cs.contains v) && addsFresh (add_view cs v) ops
  | cs, ChildOp.remove v :: ops => addsFresh (remove_view cs v) ops

/-! ## Concrete instances used by the witnesses -/

/-- A TextView of height 50, as in the two-children layout example of the
spec. -/
def demoChild1 : View :=
  { view_id := "child1", height := 50,
    variant := ViewVariant.textView "" "#000000" 14 "Arial" }

/-- A second TextView of height 50. -/
def demoChild2 : View :=
  { view_id := "child2", height := 50,
    variant := ViewVariant.textView "" "#000000" 14 "Arial" }

/-- A vertical LinearLayout with zero padding and the two children above. -/
def demoLinear : Layout :=
  { layout_id := "lin", children := [demoChild1, demoChild2],
    kind := LayoutKind.linear "vertical" }

/-- A RelativeLayout whose child has a manually set position. -/
def demoRelative : Layout :=
  { layout_id := "rel", children := [demoChild1.set_position 7 9],
    kind := LayoutKind.relative }

/-- A Button with a registered click listener. -/
def demoButton : View :=
  ({ view_id := "btn", background_color := "#2196F3",
     variant := ViewVariant.button "Button" "#FFFFFF" 14 "Arial" } : View).set_on_click_listener

/-- An activity sitting in state started with an empty hook log. -/
def demoStartedActivity : Activity :=
  { name := "prev", state := "started", hookLog := [] }

/-- A host with one registered name and a started current activity. -/
def demoApp : AndroidApp :=
  { app_name := "MyApp", package_name := "com.example.myapp",
    activities := ["main"], current := some demoStartedActivity }

/-- A host with no registrations. -/
def demoEmptyApp : AndroidApp :=
  { app_name := "MyApp", package_name := "com.example.myapp",
    activities := [], current := none }

/-! ## Helper lemmas -/

/-- Characterises every lifecycle method uniformly: each is exactly
validate, then assign, then hook, on the shared transition table. -/
theorem applyOp_eq (a : Activity) (op : LifecycleOp) :
    a.applyOp op =
      if op.target ∈ VALID_TRANSITIONS a.state then
        ({ a with
            state := op.target,
            hookLog := a.hookLog ++ [(op.hook, op.target)] }, none)
      else (a, some { from_state := a.state, to_state := op.target }) := by
  cases op <;>
    simp only [Activity.applyOp, Activity.start, Activity.resume, Activity.pause,
      Activity.stop, Activity.destroy, Activity.validate_transition,
      LifecycleOp.target, LifecycleOp.hook, Activity.on_start, Activity.on_resume,
      Activity.on_pause, Activity.on_stop, Activity.on_destroy] <;>
    split_ifs <;> rfl

/-- C1: for every Activity in any state and every lifecycle operation, if the
target state of the operation is in the legal-transition set for the current
state, the operation updates the state to the target; otherwise it raises
InvalidState, with the current and requested states in the error, and the
activity, in particular its state, is unchanged. -/
theorem C1_transition_validation (a : Activity) (op : LifecycleOp) :
    (a.applyOp op).1.state =
      (if op.target ∈ VALID_TRANSITIONS a.state then op.target else a.state) ∧
    (a.applyOp op).2 =
      (if op.target ∈ VALID_TRANSITIONS a.state then none
       else some { from_state := a.state, to_state := op.target }) ∧
    (a.applyOp op).1 =
      (if op.target ∈ VALID_TRANSITIONS a.state then (a.applyOp op).1 else a) := by
  have h := applyOp_eq a op
  by_cases hc : op.target ∈ VALID_TRANSITIONS a.state
  · rw [if_pos hc] at h
    simp [h, hc]
  · rw [if_neg hc] at h
    simp [h, hc]

/-- C2: every successful lifecycle call invokes its corresponding hook exactly
once, appending it to the hook log, while a failing call invokes no hook; and
the call sequence start, resume, pause, stop, destroy on a freshly constructed
Activity produces exactly the hook sequence onStart, onResume, onPause,
onStop, onDestroy. -/
theorem C2_hook_order :
    (∀ (a : Activity) (op : LifecycleOp),
      (a.applyOp op).1.hookLog =
        a.hookLog ++
          (if (a.applyOp op).2 = none then [(op.hook, op.target)] else [])) ∧
    ((Activity.construct "main").runOps
        [LifecycleOp.start, LifecycleOp.resume, LifecycleOp.pause,
         LifecycleOp.stop, LifecycleOp.destroy]).1.hookLog.map Prod.fst =
      [Hook.onStart, Hook.onResume, Hook.onPause, Hook.onStop, Hook.onDestroy] := by
  constructor
  · intro a op
    have h := applyOp_eq a op
    by_cases hc : op.target ∈ VALID_TRANSITIONS a.state
    · rw [if_pos hc] at h
      rw [h]
      simp
    · rw [if_neg hc] at h
      rw [h]
      simp
  · decide

/-- C10: for every Activity and every successful lifecycle operation, the
state field is assigned the new state before the hook is invoked, so the hook
log entry records the hook observing exactly the post-transition state of the
call. -/
theorem C10_hook_observes_post_state (a : Activity) (op : LifecycleOp)
    (h : (a.applyOp op).2 = none) :
    (a.applyOp op).1.hookLog =
      a.hookLog ++ [(op.hook, (a.applyOp op).1.state)] ∧
    (a.applyOp op).1.state = op.target := by
  have he := applyOp_eq a op
  by_cases hc : op.target ∈ VALID_TRANSITIONS a.state
  · rw [if_pos hc] at he
    rw [he]
    simp
  · rw [if_neg hc] at he
    rw [he] at h
    simp at h

/-- Witness for C10 at a concrete input: starting a fresh activity succeeds
and the recorded hook observation is the post-transition state. -/
theorem C10_witness :
    ((Activity.construct "m").applyOp LifecycleOp.start).2 = none ∧
    (((Activity.construct "m").applyOp LifecycleOp.start).1.hookLog =
      (Activity.construct "m").hookLog ++
        [(LifecycleOp.start.hook,
          ((Activity.construct "m").applyOp LifecycleOp.start).1.state)] ∧
     ((Activity.construct "m").applyOp LifecycleOp.start).1.state =
       LifecycleOp.start.target) :=
  ⟨by decide,
   C10_hook_observes_post_state (Activity.construct "m") LifecycleOp.start (by decide)⟩

/-- C3: for a host with a registered name, if the current activity is in
state started, then start_activity succeeds, drives the previous current
activity through stop and then destroy, leaving its final state destroyed and
its intermediate state stopped, constructs a new activity from the registered
factory and leaves it as the current activity in state started.  If instead
the current activity is in a state from which the forced stop call is
illegal, which is exactly how the stop-then-destroy sequence can fail,
start_activity raises the propagated InvalidState error and leaves the host
and the previous activity unchanged. -/
theorem C3_activity_switch (app : AndroidApp) (name : String) (act : Activity)
    (hreg : name ∈ app.activities) (hcur : app.current = some act) :
    (act.state = "started" →
      (app.start_activity name).error = none ∧
      (app.start_activity name).prev = some (act.stop.1.destroy.1) ∧
      act.stop.1.state = "stopped" ∧
      act.stop.1.destroy.1.state = "destroyed" ∧
      (app.start_activity name).app.current = some ((Activity.construct name).start.1) ∧
      ((Activity.construct name).start.1).state = "started") ∧
    ("stopped" ∉ VALID_TRANSITIONS act.state →
      (app.start_activity name).error =
        some (AppError.invalidState { from_state := act.state, to_state := "stopped" }) ∧
      (app.start_activity name).app = app ∧
      (app.start_activity name).prev = some act) := by
  constructor
  · intro hst
    have hstop : act.stop =
        ({ act with
            state := "stopped",
            hookLog := act.hookLog ++ [(Hook.onStop, "stopped")] }, none) := by
      simp [Activity.stop, Activity.validate_transition, hst, VALID_TRANSITIONS,
        Activity.on_stop]
    have hnew : (Activity.construct name).start =
        ({ name := name, state := "started",
           hookLog := [(Hook.onStart, "started")] }, none) := rfl
    simp [AndroidApp.start_activity, hreg, hcur, hstop, Activity.destroy,
      Activity.validate_transition, VALID_TRANSITIONS, Activity.on_destroy,
      AndroidApp.startNew, hnew]
  · intro hbad
    have hstop : act.stop =
        (act, some { from_state := act.state, to_state := "stopped" }) := by
      simp [Activity.stop, Activity.validate_transition, hbad]
    simp [AndroidApp.start_activity, hreg, hcur, hstop]
    rw [← hcur]

/-- Witness for C3 at a concrete input: a host with a registered name and a
started current activity switches successfully, destroying the previous
activity and leaving a fresh started one. -/
theorem C3_witness :
    "main" ∈ demoApp.activities ∧
    demoApp.current = some demoStartedActivity ∧
    demoStartedActivity.state = "started" ∧
    ((demoApp.start_activity "main").error = none ∧
     (demoApp.start_activity "main").prev =
       some (demoStartedActivity.stop.1.destroy.1) ∧
     demoStartedActivity.stop.1.state = "stopped" ∧
     demoStartedActivity.stop.1.destroy.1.state = "destroyed" ∧
     (demoApp.start_activity "main").app.current =
       some ((Activity.construct "main").start.1) ∧
     ((Activity.construct "main").start.1).state = "started") :=
  ⟨by decide, rfl, rfl,
   (C3_activity_switch demoApp "main" demoStartedActivity (by decide) rfl).1 rfl⟩

/-- C8: for every host and every name not present in its registered-activity
mapping, start_activity raises ActivityNotFound carrying the registered
names, and the host, in particular its current activity, is unchanged. -/
theorem C8_activity_not_found (app : AndroidApp) (name : String)
    (h : name ∉ app.activities) :
    app.start_activity name =
      { app := app,
        prev := app.current,
        error := some (AppError.activityNotFound name app.activities) } := by
  simp [AndroidApp.start_activity, h]

/-- Witness for C8 at a concrete input: starting a missing name on a host
with no registrations raises ActivityNotFound listing the empty set of
registered names and changes nothing. -/
theorem C8_witness :
    "missing" ∉ demoEmptyApp.activities ∧
    demoEmptyApp.start_activity "missing" =
      { app := demoEmptyApp,
        prev := demoEmptyApp.current,
        error := some (AppError.activityNotFound "missing" demoEmptyApp.activities) } :=
  ⟨by decide, C8_activity_not_found demoEmptyApp "missing" (by decide)⟩

/-- Closed form of the LinearLayout cursor loop: the child at index i is
placed at the starting cursor advanced, on the orientation axis only, by the
sizes of the preceding children on that axis plus 10 each. -/
theorem arrangeFrom_getElem (orient : String) (cs : List View) :
    ∀ (cx cy : Int) (i : Nat),
    (arrangeFrom orient cs cx cy)[i]? =
      (cs[i]?).map (fun c => c.set_position
        (if orient = "vertical" then cx
         else cx + (((cs.take i).map (fun v => v.width + 10)).sum))
        (if orient = "vertical" then
          cy + (((cs.take i).map (fun v => v.height + 10)).sum)
         else cy)) := by
  induction cs with
  | nil =>
    intro cx cy i
    simp [arrangeFrom]
  | cons c cs ih =>
    intro cx cy i
    by_cases h : orient = "vertical"
    · subst h
      cases i with
      | zero => simp [arrangeFrom]
      | succ i =>
        simp [arrangeFrom, ih, View.set_position, List.take_succ_cons, add_assoc]
    · cases i with
      | zero => simp [arrangeFrom, h]
      | succ i =>
        simp [arrangeFrom, h, ih, View.set_position, List.take_succ_cons, add_assoc]

/-- Rearranging an already arranged child list from the same cursor changes
nothing: positions are functions of the sizes, which arranging preserves. -/
theorem arrangeFrom_idem (orient : String) (cs : List View) :
    ∀ (cx cy : Int),
    arrangeFrom orient (arrangeFrom orient cs cx cy) cx cy =
      arrangeFrom orient cs cx cy := by
  induction cs with
  | nil =>
    intro cx cy
    simp [arrangeFrom]
  | cons c cs ih =>
    intro cx cy
    by_cases h : orient = "vertical"
    · subst h
      simp [arrangeFrom, View.set_position, ih]
    · simp [arrangeFrom, h, View.set_position, ih]

/-- Arrangement is idempotent for every layout kind. -/
theorem arrange_children_idem (l : Layout) :
    l.arrange_children.arrange_children = l.arrange_children := by
  cases hk : l.kind <;>
    simp [Layout.arrange_children, hk, arrangeFrom_idem]

/-- C4: for every LinearLayout, arrangement places the child at index i at a
cursor that starts at the left and top padding and was advanced, after each
preceding child, along the orientation axis by the size of that child on that
axis plus 10, while the cross-axis coordinate stays at the padding offset.
The two-children instance of the claim, positions 0,0 and 0,60, is the
witness. -/
theorem C4_linear_arrangement (l : Layout) (orient : String) (c : View)
    (hk : l.kind = LayoutKind.linear orient) (i : Nat)
    (hc : l.children[i]? = some c) :
    (l.arrange_children).children[i]? =
      some (c.set_position
        (if orient = "vertical" then l.padding.left
         else l.padding.left + (((l.children.take i).map (fun v => v.width + 10)).sum))
        (if orient = "vertical" then
          l.padding.top + (((l.children.take i).map (fun v => v.height + 10)).sum)
         else l.padding.top)) := by
  simp [Layout.arrange_children, hk, arrangeFrom_getElem, hc]

/-- Witness for C4 at the concrete input of the claim: a vertical
LinearLayout with padding 0,0,0,0 and two children of height 50 places child1
at 0,0 and child2 at 0,60. -/
theorem C4_witness :
    (demoLinear.children[0]? = some demoChild1 ∧
     (demoLinear.arrange_children).children[0]? =
       some (demoChild1.set_position 0 0)) ∧
    (demoLinear.children[1]? = some demoChild2 ∧
     (demoLinear.arrange_children).children[1]? =
       some (demoChild2.set_position 0 60)) := by
  constructor
  · refine ⟨by decide, ?_⟩
    have h := C4_linear_arrangement demoLinear "vertical" demoChild1 rfl 0 (by decide)
    simpa [demoLinear, demoChild1, demoChild2] using h
  · refine ⟨by decide, ?_⟩
    have h := C4_linear_arrangement demoLinear "vertical" demoChild2 rfl 1 (by decide)
    simpa [demoLinear, demoChild1, demoChild2] using h

/-- C5: layout arrangement is idempotent.  Calling render twice in a row with
children, sizes and padding unchanged in between leaves the layout, in
particular every child position, identical after the second call, and the two
render results are equal. -/
theorem C5_render_idempotent (l : Layout) :
    ((l.render).1.render).1 = (l.render).1 ∧
    ((l.render).1.render).2 = (l.render).2 := by
  have h := arrange_children_idem l
  constructor <;> simp [Layout.render, h]

/-- C6: a RelativeLayout never changes any child position on render,
regardless of how many times render is called: the layout after n render
calls is unchanged, so each child retains whatever position was last
explicitly set. -/
theorem C6_relative_render_keeps_positions (l : Layout)
    (hk : l.kind = LayoutKind.relative) (n : Nat) :
    Layout.renderState^[n] l = l ∧
    (Layout.renderState^[n] l).children.map (fun c => (c.x, c.y)) =
      l.children.map (fun c => (c.x, c.y)) := by
  have hstep : Layout.renderState l = l := by
    simp [Layout.renderState, Layout.render, Layout.arrange_children, hk]
  have hit : Layout.renderState^[n] l = l := by
    induction n with
    | zero => simp
    | succ n ih => rw [Function.iterate_succ_apply, hstep, ih]
  exact ⟨hit, by rw [hit]⟩

/-- Witness for C6 at a concrete input: three render calls on a
RelativeLayout whose child sits at the manually set position 7,9 change
nothing. -/
theorem C6_witness :
    demoRelative.kind = LayoutKind.relative ∧
    (Layout.renderState^[3] demoRelative = demoRelative ∧
     (Layout.renderState^[3] demoRelative).children.map (fun c => (c.x, c.y)) =
       demoRelative.children.map (fun c => (c.x, c.y))) :=
  ⟨rfl, C6_relative_render_keeps_positions demoRelative rfl 3⟩

/-- C7: for every View with a registered click listener, on_click invokes the
listener exactly when enabled is true; with enabled false the call is a
silent no-op; re-enabling makes a subsequent on_click invoke the listener
again; and the value of visible never affects whether the listener is
invoked. -/
theorem C7_click_dispatch (v : View) (hl : v.onclick_listener.isSome = true) :
    v.on_click = v.enabled ∧
    (v.set_enabled false).on_click = false ∧
    ((v.set_enabled false).set_enabled true).on_click = true ∧
    (v.set_visibility true).on_click = v.on_click ∧
    (v.set_visibility false).on_click = v.on_click := by
  simp [View.on_click, View.set_enabled, View.set_visibility, hl]

/-- Witness for C7 at a concrete input: a Button with a registered
listener. -/
theorem C7_witness :
    demoButton.onclick_listener.isSome = true ∧
    (demoButton.on_click = demoButton.enabled ∧
     (demoButton.set_enabled false).on_click = false ∧
     ((demoButton.set_enabled false).set_enabled true).on_click = true ∧
     (demoButton.set_visibility true).on_click = demoButton.on_click ∧
     (demoButton.set_visibility false).on_click = demoButton.on_click) :=
  ⟨by decide, C7_click_dispatch demoButton (by decide)⟩

/-- C9 counterexample: the claim as stated is false on the code.  add_view
appends unconditionally, so adding the same View object twice, a legal
sequence of add_view calls from the empty layout, leaves the same object in
the child collection twice. -/
theorem C9_counterexample :
    applyChildOps [] [ChildOp.add 0, ChildOp.add 0] = [0, 0] ∧
    ¬ (applyChildOps [] [ChildOp.add 0, ChildOp.add 0]).Nodup := by
  decide

/-- Freshly adding into a duplicate-free collection keeps it duplicate-free,
for any mix of add_view and remove_view calls. -/
theorem applyChildOps_nodup (ops : List ChildOp) :
    ∀ (cs : List Nat), cs.Nodup → addsFresh cs ops = true →
      (applyChildOps cs ops).Nodup := by
  induction ops with
  | nil =>
    intro cs h _
    simpa [applyChildOps] using h
  | cons op ops ih =>
    intro cs h hf
    cases op with
    | add v =>
      simp only [addsFresh, Bool.and_eq_true, Bool.not_eq_true'] at hf
      obtain ⟨hv, hf⟩ := hf
      have hvm : v ∉ cs := by simpa using hv
      refine ih (add_view cs v) ?_ hf
      simp [add_view, List.nodup_append, h, hvm]
    | remove v =>
      simp only [addsFresh] at hf
      refine ih (remove_view cs v) ?_ hf
      unfold remove_view
      split_ifs with hv
      · exact h.erase v
      · exact h

/-- C9 amended: after any sequence of add_view and remove_view operations
starting from the empty layout in which each add_view call adds a View object
not currently in the collection, the children collection contains no
duplicate-object entries.  Without that proviso the invariant fails, as the
counterexample shows, because add_view never deduplicates. -/
theorem C9_no_duplicate_objects (ops : List ChildOp)
    (h : addsFresh [] ops = true) :
    (applyChildOps [] ops).Nodup :=
  applyChildOps_nodup ops [] List.nodup_nil h

/-- Witness for the amended C9 at a concrete input: adds of fresh objects
interleaved with a remove leave a duplicate-free collection, even when a
previously removed object is re-added. -/
theorem C9_witness :
    addsFresh [] [ChildOp.add 0, ChildOp.add 1, ChildOp.remove 0, ChildOp.add 0] = true ∧
    (applyChildOps [] [ChildOp.add 0, ChildOp.add 1, ChildOp.remove 0, ChildOp.add 0]).Nodup :=
  ⟨by decide, C9_no_duplicate_objects _ (by decide)⟩

end PyAndroid
